import Mathlib

/-!
Verification of the HTTP stress-testing engine in `stress_test.py`
(class `StressTester`) and, where referenced, the batch client in
`client.py`.

The embedding is shallow: Python floats are modelled as `ℚ`, Python ints
as `Nat`, and the transport layer (out of scope per the design) is
abstracted as a `NetEvent` describing how one request attempt ended,
exactly mirroring the four arms of `StressTester.make_request`
(the `async with session.request` success path and the three `except`
clauses).
-/

namespace StressTest

/-- `RequestResult` dataclass, `stress_test.py` lines 28-36.
Field defaults `error = ""` and `response_size = 0` are the dataclass
defaults. -/
structure RequestResult where
  success : Bool
  status_code : Nat
  response_time : ℚ
  timestamp : ℚ
  error : String := ""
  response_size : Nat := 0
deriving Repr, DecidableEq

/-- Well-formedness of an outcome as stated in the data model: exactly one
of success-with-empty-error or failure-with-non-empty-error holds. -/
def RequestResult.wf (r : RequestResult) : Prop :=
  (r.success = true ∧ r.error = "") ∨ (r.success = false ∧ r.error ≠ "")

instance (r : RequestResult) : Decidable r.wf := by
  unfold RequestResult.wf
  infer_instance

/-- `TestConfiguration`: the constructor arguments of `StressTester.__init__`,
`stress_test.py` lines 57-71. -/
structure TestConfiguration where
  url : String
  total_requests : Nat
  concurrency : Nat
  timeout : ℚ
  method : String
  body : Option String
  cooldown : ℚ
  batch_size : Nat
  keep_alive : Bool
  verify_ssl : Bool

/-- How a single request attempt ended at the transport layer.  The four
cases correspond one-to-one to the four arms of
`StressTester.make_request` (lines 100-136): a response was received and
its body fully read; `asyncio.TimeoutError`; `aiohttp.ClientError` with
message `m`; any other `Exception` with message `m`. -/
inductive NetEvent where
  | response (status : Nat) (content_size : Nat)
  | timeout
  | clientError (m : String)
  | otherError (m : String)
deriving Repr, DecidableEq

/-- Whether the attempt failed at the transport layer (no response). -/
def NetEvent.isFailure : NetEvent → Bool
  | .response _ _ => false
  | _ => true

/-- `StressTester.make_request`, `stress_test.py` lines 86-136.
`start` is `time.time()` at entry and `elapsed` the measured
`time.time() - start`; both are externally observed wall-clock values.
The function is total: every failure mode is one of the `except` arms and
is converted to a `RequestResult` with `success=False`, `status_code=0`,
the error string of that branch, and the default `response_size=0`; a received
response yields `success=True` with the received status and body size and
the default `error=""`. -/
def make_request (cfg : TestConfiguration) (request_id : Nat)
    (start elapsed : ℚ) (ev : NetEvent) : RequestResult :=
  match ev with
  | .response status content_size =>
      { success := true, status_code := status, response_time := elapsed,
        timestamp := start, response_size := content_size }
  | .timeout =>
      { success := false, status_code := 0, response_time := elapsed,
        timestamp := start, error := "Timeout" }
  | .clientError m =>
      { success := false, status_code := 0, response_time := elapsed,
        timestamp := start, error := "ClientError: " ++ m }
  | .otherError m =>
      { success := false, status_code := 0, response_time := elapsed,
        timestamp := start, error := "Exception: " ++ m }

/-- A string with a non-empty first component stays non-empty under append. -/
theorem append_ne_empty_of_left (s m : String) (h : 0 < s.length) :
    s ++ m ≠ "" := by
  intro hc
  have hl := congrArg String.length hc
  rw [String.length_append] at hl
  have h0 : ("" : String).length = 0 := rfl
  omega

/-- Every outcome of `make_request` is well-formed. -/
theorem make_request_wf (cfg : TestConfiguration) (request_id : Nat)
    (start elapsed : ℚ) (ev : NetEvent) :
    (make_request cfg request_id start elapsed ev).wf := by
  cases ev with
  | response status content_size => exact Or.inl ⟨rfl, rfl⟩
  | timeout =>
      refine Or.inr ⟨rfl, ?_⟩
      show ("Timeout" : String) ≠ ""
      decide
  | clientError m =>
      refine Or.inr ⟨rfl, ?_⟩
      exact append_ne_empty_of_left "ClientError: " m (by decide)
  | otherError m =>
      refine Or.inr ⟨rfl, ?_⟩
      exact append_ne_empty_of_left "Exception: " m (by decide)

/-- Every failed outcome of `make_request` carries the sentinel status 0 and
zero response size. -/
theorem make_request_failure_fields (cfg : TestConfiguration) (request_id : Nat)
    (start elapsed : ℚ) (ev : NetEvent)
    (h : (make_request cfg request_id start elapsed ev).success = false) :
    (make_request cfg request_id start elapsed ev).status_code = 0 ∧
    (make_request cfg request_id start elapsed ev).response_size = 0 := by
  cases ev <;> simp_all [make_request]

/-- `num_batches = (self.total_requests + self.batch_size - 1) // self.batch_size`,
`stress_test.py` line 236. -/
def num_batches (total_requests batch_size : Nat) : Nat :=
  (total_requests + batch_size - 1) / batch_size

/-- `start_idx = batch_num * self.batch_size`, line 242. -/
def batch_start (batch_size batch_num : Nat) : Nat :=
  batch_num * batch_size

/-- `end_idx = min((batch_num + 1) * self.batch_size, self.total_requests)`,
line 243. -/
def batch_end (total_requests batch_size batch_num : Nat) : Nat :=
  min ((batch_num + 1) * batch_size) total_requests

/-- The request identifiers queued for one batch: `range(start_idx, end_idx)`
put on the queue in `run_batch`, lines 181-183. -/
def batch_ids (total_requests batch_size batch_num : Nat) : List Nat :=
  List.range' (batch_start batch_size batch_num)
    (batch_end total_requests batch_size batch_num - batch_start batch_size batch_num)

theorem num_batches_eq_ceil (T B : Nat) (hB : 0 < B) :
    num_batches T B = ⌈(T : ℚ) / (B : ℚ)⌉₊ := by
  have hdm := Nat.div_add_mod (T + B - 1) B
  have hr : (T + B - 1) % B < B := Nat.mod_lt _ hB
  have hBQ : (0 : ℚ) < (B : ℚ) := by exact_mod_cast hB
  apply le_antisymm
  · have h1 : (T : ℚ) / B ≤ (⌈(T : ℚ) / B⌉₊ : ℚ) := Nat.le_ceil _
    have h2 : (T : ℚ) ≤ (⌈(T : ℚ) / B⌉₊ : ℚ) * B := by
      rwa [div_le_iff₀ hBQ] at h1
    have h3 : T ≤ ⌈(T : ℚ) / B⌉₊ * B := by exact_mod_cast h2
    unfold num_batches
    by_contra hlt
    push_neg at hlt
    have h5 : B * (⌈(T : ℚ) / B⌉₊ + 1) ≤ B * ((T + B - 1) / B) :=
      Nat.mul_le_mul_left B hlt
    have h6 : ⌈(T : ℚ) / B⌉₊ * B = B * ⌈(T : ℚ) / B⌉₊ := Nat.mul_comm _ _
    have h7 : B * (⌈(T : ℚ) / B⌉₊ + 1) = B * ⌈(T : ℚ) / B⌉₊ + B :=
      Nat.mul_succ B _
    omega
  · rw [Nat.ceil_le, div_le_iff₀ hBQ]
    have h4 : T ≤ num_batches T B * B := by
      unfold num_batches
      have h8 : (T + B - 1) / B * B = B * ((T + B - 1) / B) := Nat.mul_comm _ _
      omega
    exact_mod_cast h4

theorem le_num_batches_mul (T B : Nat) (hB : 0 < B) :
    T ≤ num_batches T B * B := by
  have hdm := Nat.div_add_mod (T + B - 1) B
  have hr : (T + B - 1) % B < B := Nat.mod_lt _ hB
  have h8 : (T + B - 1) / B * B = B * ((T + B - 1) / B) := Nat.mul_comm _ _
  unfold num_batches
  omega

/-- Per-batch sizes telescope: the first `n` batches cover `min (n*B) T`
identifiers in total. -/
theorem sum_batch_sizes (T B : Nat) (n : Nat) :
    (Finset.range n).sum
      (fun b => batch_end T B b - batch_start B b) = min (n * B) T := by
  induction n with
  | zero => simp
  | succ n ih =>
      rw [Finset.sum_range_succ, ih]
      unfold batch_end batch_start
      have hs : (n + 1) * B = n * B + B := Nat.succ_mul n B
      omega

/-- Absent cancellation, the batch sizes sum to exactly the total request
count. -/
theorem sum_batch_sizes_total (T B : Nat) (hB : 0 < B) :
    (Finset.range (num_batches T B)).sum
      (fun b => batch_end T B b - batch_start B b) = T := by
  rw [sum_batch_sizes]
  have := le_num_batches_mul T B hB
  omega

theorem batch_ids_length (T B b : Nat) :
    (batch_ids T B b).length = batch_end T B b - batch_start B b := by
  unfold batch_ids
  exact List.length_range' _ _ _

/-- Python `int()` applied to a rational: truncation toward zero. -/
def pyInt (q : ℚ) : ℤ :=
  if 0 ≤ q then ⌊q⌋ else ⌈q⌉

/-- The nested `percentile(data, p)` of `calculate_stats`,
`stress_test.py` lines 280-288.  `data.getD i 0` models `data[i]` for the
in-range indices reached here; `data[-1]` is the last element. -/
def percentile (data : List ℚ) (p : ℚ) : ℚ :=
  if data = [] then 0
  else
    let k : ℚ := ((data.length : ℚ) - 1) * p
    let f : ℤ := pyInt k
    let c : ℤ := f + 1
    if (data.length : ℤ) ≤ c then data.getLastD 0
    else data.getD f.toNat 0 + (k - (f : ℚ)) * (data.getD c.toNat 0 - data.getD f.toNat 0)

/-- Percentile computation as worded by the spec (§4.5): for `p ∈ [0,1]`,
index `k = (n-1)*p`, `floor = ⌊k⌋`, `frac = k - floor`; result =
`times[floor] + frac * (times[floor+1] - times[floor])`, clamped to the
last element when `floor + 1 == n`. -/
def spec_percentile (times : List ℚ) (p : ℚ) : ℚ :=
  let n := times.length
  let k : ℚ := ((n : ℚ) - 1) * p
  let fl : ℕ := (⌊k⌋).toNat
  let frac : ℚ := k - (⌊k⌋ : ℚ)
  if fl + 1 = n then times.getLastD 0
  else times.getD fl 0 + frac * (times.getD (fl + 1) 0 - times.getD fl 0)

/-- `successful = [r for r in self.results if r.success]`, line 263. -/
def successful (results : List RequestResult) : List RequestResult :=
  results.filter (fun r => r.success)

/-- `failed = [r for r in self.results if not r.success]`, line 264. -/
def failed (results : List RequestResult) : List RequestResult :=
  results.filter (fun r => !r.success)

/-- `response_times = [r.response_time * 1000 for r in self.results]`
followed by `response_times.sort()`, lines 266-267. -/
def response_times (results : List RequestResult) : List ℚ :=
  (results.map (fun r => r.response_time * 1000)).mergeSort
    (fun a b => decide (a ≤ b))

/-- Status-code distribution (`defaultdict` counting over all results,
lines 270-272), as a count function. -/
def status_codes (results : List RequestResult) (code : Nat) : Nat :=
  results.countP (fun r => r.status_code == code)

/-- Error-message distribution over the failed results, lines 275-277. -/
def errors_dist (results : List RequestResult) (msg : String) : Nat :=
  (failed results).countP (fun r => r.error == msg)

/-- `statistics.mean` (applied only to non-empty input, guarded at
line 298). -/
def stat_mean (l : List ℚ) : ℚ := l.sum / l.length

/-- `statistics.median`: sort, then middle element (odd length) or the mean
of the two middle elements (even length); guarded non-empty at line 301. -/
def stat_median (l : List ℚ) : ℚ :=
  let s := l.mergeSort (fun a b => decide (a ≤ b))
  if l.length % 2 = 1 then s.getD (l.length / 2) 0
  else (s.getD (l.length / 2 - 1) 0 + s.getD (l.length / 2) 0) / 2

/-- Python `min(...)` over a non-empty list (guarded at line 299). -/
def list_min : List ℚ → ℚ
  | [] => 0
  | x :: xs => xs.foldl min x

/-- Python `max(...)` over a non-empty list (guarded at line 300). -/
def list_max : List ℚ → ℚ
  | [] => 0
  | x :: xs => xs.foldl max x

/-- `len(self.results) / total_time if total_time > 0 else 0`, line 297. -/
def requests_per_second (n : Nat) (total_time : ℚ) : ℚ :=
  if 0 < total_time then (n : ℚ) / total_time else 0

/-- `total_data_transferred = sum(r.response_size for r in successful)`,
line 304. -/
def total_data_transferred (results : List RequestResult) : Nat :=
  ((successful results).map (fun r => r.response_size)).sum

/-- `TestStats` dataclass, `stress_test.py` lines 38-54; the two
distribution dicts are modelled as count functions. -/
structure TestStats where
  total_requests : Nat
  successful_requests : Nat
  failed_requests : Nat
  total_time : ℚ
  requests_per_second : ℚ
  avg_response_time : ℚ
  min_response_time : ℚ
  max_response_time : ℚ
  median_response_time : ℚ
  p95_response_time : ℚ
  p99_response_time : ℚ
  total_data_transferred : Nat
  status_codes : Nat → Nat
  errors : String → Nat

/-- `StressTester.calculate_stats`, lines 258-307.  Returns `none` for the
empty results list (`if not self.results: return None`, lines 260-261). -/
def calculate_stats (results : List RequestResult)
    (start_time end_time : ℚ) : Option TestStats :=
  if results = [] then none
  else
    let times := response_times results
    let total_time := end_time - start_time
    some
      { total_requests := results.length
        successful_requests := (successful results).length
        failed_requests := (failed results).length
        total_time := total_time
        requests_per_second := requests_per_second results.length total_time
        avg_response_time := if times ≠ [] then stat_mean times else 0
        min_response_time := if times ≠ [] then list_min times else 0
        max_response_time := if times ≠ [] then list_max times else 0
        median_response_time := if times ≠ [] then stat_median times else 0
        p95_response_time := percentile times (95 / 100)
        p99_response_time := percentile times (99 / 100)
        total_data_transferred := total_data_transferred results
        status_codes := status_codes results
        errors := errors_dist results }

/-- What `main` (lines 557-570) does with the computed statistics: report
them, or print the `"[!] No results collected"` notice when there are
none. -/
inductive ReportOutput where
  | report (stats : TestStats)
  | noData

/-- The branch on `stats` in `main`, lines 559-570. -/
def main_report (stats : Option TestStats) : ReportOutput :=
  match stats with
  | some s => ReportOutput.report s
  | none => ReportOutput.noData

/-- When, relative to the scheduler loop of `StressTester.run`
(lines 238-253), the SIGINT handler (lines 81-84) sets
`self.running = False`.  `never`: no interrupt; `duringBatch k`: the flag
clears while batch `k` executes inside `run_batch`; `duringCooldown k`:
the flag clears while the `asyncio.sleep(self.cooldown)` following batch
`k` is in progress. -/
inductive CancelSpec where
  | never
  | duringBatch (k : Nat)
  | duringCooldown (k : Nat)
deriving Repr, DecidableEq

/-- Value of `self.running` at the `if not self.running: break` check
before batch `b` (line 239): the flag is still set exactly when the
cancellation point lies in batch `b` or later. -/
def running_before_batch : CancelSpec → Nat → Bool
  | .never, _ => true
  | .duringBatch k, b => decide (b ≤ k)
  | .duringCooldown k, b => decide (b ≤ k)

/-- Value of `self.running` at the `and self.running` conjunct guarding
the cooldown sleep after batch `b` (line 251).  When the flag cleared
during batch `b` itself this check already sees `False`; when it clears
during the sleep after batch `b`, the check (which precedes the sleep)
still sees `True`. -/
def running_after_batch : CancelSpec → Nat → Bool
  | .never, _ => true
  | .duringBatch k, b => decide (b < k)
  | .duringCooldown k, b => decide (b ≤ k)

/-- Whether batch `b` runs to completion with the flag set throughout, so
that its workers drain the whole queue. -/
def batch_uncancelled : CancelSpec → Nat → Bool
  | .never, _ => true
  | .duringBatch k, b => decide (b ≠ k)
  | .duringCooldown _, _ => true

/-- Time spent in `await asyncio.sleep(self.cooldown)` after batch `b`
(lines 251-253).  The sleep is entered when `self.cooldown > 0`, `b` is
not the last batch, and `self.running` holds at the check; nothing in the
program cancels the sleeping task — the SIGINT handler only sets a flag —
so whenever the sleep is entered it lasts the full `cooldown`. -/
def sleep_after_batch (cooldown : ℚ) (numB : Nat) (c : CancelSpec)
    (b : Nat) : ℚ :=
  if 0 < cooldown ∧ b < numB - 1 ∧ running_after_batch c b then cooldown
  else 0

/-- The `for batch_num in range(num_batches)` loop of `run`
(lines 238-253), starting at batch `b` with `fuel` iterations of budget;
returns the number of batches started and the total time spent sleeping
in cooldowns. -/
def sched_from (cooldown : ℚ) (numB : Nat) (c : CancelSpec) :
    Nat → Nat → Nat × ℚ
  | 0, _ => (0, 0)
  | fuel + 1, b =>
      if b < numB then
        if running_before_batch c b then
          let rest := sched_from cooldown numB c fuel (b + 1)
          (rest.1 + 1, sleep_after_batch cooldown numB c b + rest.2)
        else (0, 0)
      else (0, 0)

/-- One full scheduler run over `num_batches total_requests batch_size`
batches. -/
def sched_run (cooldown : ℚ) (total_requests batch_size : Nat)
    (c : CancelSpec) : Nat × ℚ :=
  sched_from cooldown (num_batches total_requests batch_size) c
    (num_batches total_requests batch_size) 0

/-- The number of batches the loop starts before `break` fires: the
longest run of batch indices whose `running` check succeeds
(lines 238-240). -/
def batches_started (numB : Nat) (c : CancelSpec) : Nat :=
  ((List.range numB).takeWhile (fun b => running_before_batch c b)).length

/-- Validity of the execution of one batch under the worker pool (`run_batch`
and `worker`, lines 138-200): `processed` is the completion-ordered list
of identifiers that were dequeued and ran through `make_request`.  When
the running flag holds throughout the batch the workers drain the queue
completely, so `processed` is a permutation of the queued identifiers; if
the flag clears mid-batch the dequeue loop can stop early, leaving a
sub-permutation (in-flight items still finish, never-dequeued items are
dropped). -/
def BatchProcessed (T B b : Nat) (cancelled_during : Bool)
    (processed : List Nat) : Prop :=
  if cancelled_during then List.Subperm processed (batch_ids T B b)
  else List.Perm processed (batch_ids T B b)

/-- `queue.join()` at line 194 returns exactly when `task_done()` (called
once per dequeued identifier, line 152) has been invoked once per queued
item; identifiers never dequeued are never marked done. -/
def queue_join_returns (T B b : Nat) (processed : List Nat) : Prop :=
  processed.length = (batch_ids T B b).length

/-- The contents of `self.results` after a run (appends at line 146 inside
batches scheduled at lines 238-248): batches `0 .. batches_started - 1`
run in order, and within batch `b` each processed identifier `i`
contributes `make_request` applied to its transport event, in completion
order. -/
def run_results (cfg : TestConfiguration) (events : Nat → NetEvent)
    (startT elapsedT : Nat → ℚ) (c : CancelSpec)
    (sched : Nat → List Nat) : List RequestResult :=
  ((List.range
      (batches_started (num_batches cfg.total_requests cfg.batch_size) c)).map
    (fun b => (sched b).map
      (fun i => make_request cfg i (startT i) (elapsedT i) (events i)))).flatten

theorem batches_started_never (numB : Nat) :
    batches_started numB CancelSpec.never = numB := by
  unfold batches_started
  have h : ∀ l : List Nat,
      l.takeWhile (fun b => running_before_batch CancelSpec.never b) = l := by
    intro l
    induction l with
    | nil => rfl
    | cons x xs ih => simpa [List.takeWhile, running_before_batch] using ih
  rw [h, List.length_range]

/-- List-indexed version of the per-batch size telescoping. -/
theorem sum_batch_sizes_list (T B n : Nat) :
    ((List.range n).map (fun b => batch_end T B b - batch_start B b)).sum
      = min (n * B) T := by
  induction n with
  | zero => simp
  | succ n ih =>
      rw [List.range_succ, List.map_append, List.sum_append]
      simp only [List.map_cons, List.map_nil, List.sum_cons, List.sum_nil, ih]
      unfold batch_end batch_start
      have hs : (n + 1) * B = n * B + B := Nat.succ_mul n B
      omega

theorem BatchProcessed.length_le {T B b : Nat} {cd : Bool} {processed : List Nat}
    (h : BatchProcessed T B b cd processed) :
    processed.length ≤ batch_end T B b - batch_start B b := by
  rw [← batch_ids_length]
  unfold BatchProcessed at h
  cases cd with
  | false => exact le_of_eq (List.Perm.length_eq (by simpa using h))
  | true => exact List.Subperm.length_le (by simpa using h)

theorem BatchProcessed.length_eq {T B b : Nat} {processed : List Nat}
    (h : BatchProcessed T B b false processed) :
    processed.length = batch_end T B b - batch_start B b := by
  rw [← batch_ids_length]
  exact List.Perm.length_eq (by simpa [BatchProcessed] using h)

theorem run_results_length (cfg : TestConfiguration) (events : Nat → NetEvent)
    (startT elapsedT : Nat → ℚ) (c : CancelSpec) (sched : Nat → List Nat) :
    (run_results cfg events startT elapsedT c sched).length
      = ((List.range
            (batches_started (num_batches cfg.total_requests cfg.batch_size) c)).map
          (fun b => (sched b).length)).sum := by
  unfold run_results
  rw [List.length_flatten, List.map_map]
  congr 1
  apply List.map_congr_left
  intro b _
  simp

theorem sched_from_duringCooldown (cooldown : ℚ) (numB k : Nat)
    (hc : 0 < cooldown) (hk : k + 1 < numB) :
    ∀ fuel b, numB ≤ fuel + b → b ≤ k + 1 →
      sched_from cooldown numB (CancelSpec.duringCooldown k) fuel b
        = (k + 1 - b, ((k + 1 - b : Nat) : ℚ) * cooldown) := by
  intro fuel
  induction fuel with
  | zero =>
      intro b hfb hbk
      omega
  | succ fuel ih =>
      intro b hfb hbk
      rcases Nat.lt_or_ge b (k + 1) with hb | hb
      · have hrun : running_before_batch (CancelSpec.duringCooldown k) b = true := by
          simp [running_before_batch]
          omega
        have hbn : b < numB := by omega
        have hrest := ih (b + 1) (by omega) (by omega)
        have hsleep : sleep_after_batch cooldown numB (CancelSpec.duringCooldown k) b
            = cooldown := by
          unfold sleep_after_batch
          rw [if_pos]
          refine ⟨hc, by omega, ?_⟩
          simp [running_after_batch]
          omega
        unfold sched_from
        rw [if_pos hbn, if_pos hrun, hrest, hsleep]
        have h1 : k + 1 - b = (k + 1 - (b + 1)) + 1 := by omega
        have h2 : ((k + 1 - b : Nat) : ℚ) = ((k + 1 - (b + 1) : Nat) : ℚ) + 1 := by
          rw [h1]
          push_cast
          ring
        refine Prod.ext ?_ ?_
        · simp
          omega
        · simp [h2]
          ring
      · have hbe : b = k + 1 := by omega
        have hrun : running_before_batch (CancelSpec.duringCooldown k) b = false := by
          simp [running_before_batch]
          omega
        have hbn : b < numB := by omega
        unfold sched_from
        rw [if_pos hbn, if_neg (by simp [hrun])]
        subst hbe
        simp

theorem sched_from_never (cooldown : ℚ) (numB : Nat) :
    ∀ fuel b, numB ≤ fuel + b →
      (sched_from cooldown numB CancelSpec.never fuel b).1 = numB - b := by
  intro fuel
  induction fuel with
  | zero =>
      intro b hfb
      unfold sched_from
      omega
  | succ fuel ih =>
      intro b hfb
      by_cases hbn : b < numB
      · have hrest := ih (b + 1) (by omega)
        unfold sched_from
        have hcond : running_before_batch CancelSpec.never b = true := rfl
        rw [if_pos hbn, if_pos hcond]
        simp only []
        omega
      · unfold sched_from
        rw [if_neg hbn]
        omega

theorem percentile_eq_spec (data : List ℚ) (p : ℚ)
    (hne : data ≠ []) (hp0 : 0 ≤ p) (hp1 : p ≤ 1) :
    percentile data p = spec_percentile data p := by
  have hn : 0 < data.length := List.length_pos.mpr hne
  have hn1 : (1 : ℚ) ≤ (data.length : ℚ) := by exact_mod_cast hn
  have hk0 : 0 ≤ ((data.length : ℚ) - 1) * p := mul_nonneg (by linarith) hp0
  have hkle : ((data.length : ℚ) - 1) * p ≤ (data.length : ℚ) - 1 := by
    nlinarith
  have hfloor0 : 0 ≤ ⌊((data.length : ℚ) - 1) * p⌋ := Int.floor_nonneg.mpr hk0
  have hfloorlt : ⌊((data.length : ℚ) - 1) * p⌋ < (data.length : ℤ) := by
    rw [Int.floor_lt]
    push_cast
    linarith
  simp only [percentile, spec_percentile, pyInt, if_neg hne, if_pos hk0]
  split_ifs with h1 h2 h2
  · rfl
  · exfalso
    apply h2
    omega
  · exfalso
    omega
  · have hc : (⌊((data.length : ℚ) - 1) * p⌋ + 1).toNat
        = (⌊((data.length : ℚ) - 1) * p⌋).toNat + 1 := by omega
    rw [hc]

theorem percentile_example_p50 :
    percentile [10, 20, 30, 40, 50] (50 / 100) = 30 := by
  have hk : ((([10, 20, 30, 40, 50] : List ℚ).length : ℚ) - 1) * (50 / 100)
      = 2 := by norm_num
  have hf : pyInt (2 : ℚ) = 2 := by
    unfold pyInt
    rw [if_pos (by norm_num), Int.floor_eq_iff]
    norm_num
  unfold percentile
  rw [if_neg (by simp)]
  simp only [hk, hf]
  rw [if_neg (by norm_num)]
  show (30 : ℚ) + (2 - 2) * (40 - 30) = 30
  norm_num

theorem percentile_example_p95 :
    percentile [10, 20, 30, 40, 50] (95 / 100) = 48 := by
  have hk : ((([10, 20, 30, 40, 50] : List ℚ).length : ℚ) - 1) * (95 / 100)
      = 19 / 5 := by norm_num
  have hf : pyInt (19 / 5 : ℚ) = 3 := by
    unfold pyInt
    rw [if_pos (by norm_num), Int.floor_eq_iff]
    norm_num
  unfold percentile
  rw [if_neg (by simp)]
  simp only [hk, hf]
  rw [if_neg (by norm_num)]
  show (40 : ℚ) + (19 / 5 - 3) * (50 - 40) = 48
  norm_num

theorem percentile_example_p99 :
    percentile [10, 20, 30, 40, 50] (99 / 100) = 248 / 5 := by
  have hk : ((([10, 20, 30, 40, 50] : List ℚ).length : ℚ) - 1) * (99 / 100)
      = 99 / 25 := by norm_num
  have hf : pyInt (99 / 25 : ℚ) = 3 := by
    unfold pyInt
    rw [if_pos (by norm_num), Int.floor_eq_iff]
    norm_num
  unfold percentile
  rw [if_neg (by simp)]
  simp only [hk, hf]
  rw [if_neg (by norm_num)]
  show (40 : ℚ) + (99 / 25 - 3) * (50 - 40) = 248 / 5
  norm_num

/-- Response sizes of failure outcomes are zero, so summing over the
successful outcomes equals summing over all outcomes. -/
theorem sum_sizes_filter_success (results : List RequestResult)
    (hz : ∀ r ∈ results, r.success = false → r.response_size = 0) :
    ((results.filter (fun r => r.success)).map (fun r => r.response_size)).sum
      = (results.map (fun r => r.response_size)).sum := by
  induction results with
  | nil => rfl
  | cons r rs ih =>
      have hz' : ∀ x ∈ rs, x.success = false → x.response_size = 0 :=
        fun x hx => hz x (List.mem_cons_of_mem r hx)
      by_cases hr : r.success
      · simp [List.filter_cons, hr, ih hz']
      · have h0 : r.response_size = 0 :=
          hz r (List.mem_cons_self r rs) (by simpa using hr)
        simp [List.filter_cons, hr, ih hz', h0]

/-- A concrete configuration used to instantiate the theorems below. -/
def exampleConfig : TestConfiguration :=
  { url := "http://localhost:5000/matmul"
    total_requests := 2
    concurrency := 1
    timeout := 30
    method := "GET"
    body := none
    cooldown := 0
    batch_size := 1
    keep_alive := true
    verify_ssl := true }

/-- Claim C1: for every configuration and request identifier,
`make_request` returns exactly one outcome and never propagates an error
out of the call — every failure event (connect failure, read failure,
timeout, protocol error) yields an outcome with `success = false` — and a
timeout produces a failed outcome whose error message is exactly
`"Timeout"`. -/
theorem make_request_total_never_raises (cfg : TestConfiguration)
    (request_id : Nat) (start elapsed : ℚ) (ev : NetEvent) :
    (∃! r : RequestResult,
        make_request cfg request_id start elapsed ev = r) ∧
    (ev.isFailure = true →
        (make_request cfg request_id start elapsed ev).success = false) ∧
    ((make_request cfg request_id start elapsed NetEvent.timeout).success
        = false ∧
      (make_request cfg request_id start elapsed NetEvent.timeout).error
        = "Timeout") := by
  refine ⟨⟨make_request cfg request_id start elapsed ev, rfl,
      fun y hy => hy.symm⟩, ?_, rfl, rfl⟩
  intro hf
  cases ev with
  | response status content_size => simp [NetEvent.isFailure] at hf
  | timeout => rfl
  | clientError m => rfl
  | otherError m => rfl

/-- Claim C1 witness at a concrete timeout event. -/
theorem make_request_total_never_raises_witness :
    NetEvent.timeout.isFailure = true ∧
    (make_request exampleConfig 0 0 1 NetEvent.timeout).success = false ∧
    (make_request exampleConfig 0 0 1 NetEvent.timeout).error = "Timeout" :=
  ⟨rfl,
    (make_request_total_never_raises exampleConfig 0 0 1
        NetEvent.timeout).2.1 rfl,
    (make_request_total_never_raises exampleConfig 0 0 1
        NetEvent.timeout).2.2.2⟩

/-- Claim C2 counterexample: a received 429 response yields an outcome
with `success = true` even though its status code is not 200, refuting
`success ⇔ statusCode == 200` for the Dispatcher of `stress_test.py`. -/
theorem make_request_429_counterexample :
    (make_request exampleConfig 0 0 1 (NetEvent.response 429 0)).success
      = true ∧
    (make_request exampleConfig 0 0 1 (NetEvent.response 429 0)).status_code
      ≠ 200 := by
  exact ⟨rfl, by decide⟩

/-- Claim C2 (amended): for every outcome produced by the Dispatcher,
`success = true` iff a response was received (whatever its status); a
received non-200 status such as 429 or 500 therefore yields
`success = true`, with its status code recorded unchanged in the outcome
and hence tallied in the status distribution.  The strict
`status == 200` success predicate appears only in the summary
filter of `client.py`, not in the Dispatcher. -/
theorem make_request_success_iff_received (cfg : TestConfiguration)
    (request_id : Nat) (start elapsed : ℚ) (ev : NetEvent)
    (results : List RequestResult) :
    ((make_request cfg request_id start elapsed ev).success = true ↔
        ∃ s n, ev = NetEvent.response s n) ∧
    (∀ s n, ev = NetEvent.response s n →
        (make_request cfg request_id start elapsed ev).status_code = s) ∧
    (make_request cfg request_id start elapsed ev ∈ results →
        0 < status_codes results
          (make_request cfg request_id start elapsed ev).status_code) := by
  refine ⟨?_, ?_, ?_⟩
  · constructor
    · intro hs
      cases ev with
      | response s n => exact ⟨s, n, rfl⟩
      | timeout => simp [make_request] at hs
      | clientError m => simp [make_request] at hs
      | otherError m => simp [make_request] at hs
    · rintro ⟨s, n, rfl⟩
      rfl
  · rintro s n rfl
    rfl
  · intro hmem
    rw [status_codes, List.countP_pos_iff]
    exact ⟨make_request cfg request_id start elapsed ev, hmem, by simp⟩

/-- Claim C2 witness: a 429 outcome is successful and its status code is
counted in the distribution. -/
theorem make_request_success_iff_received_witness :
    (make_request exampleConfig 0 0 1 (NetEvent.response 429 7)).success
      = true ∧
    0 < status_codes [make_request exampleConfig 0 0 1
        (NetEvent.response 429 7)] 429 :=
  ⟨(make_request_success_iff_received exampleConfig 0 0 1
      (NetEvent.response 429 7) []).1.mpr ⟨429, 7, rfl⟩,
    (make_request_success_iff_received exampleConfig 0 0 1
      (NetEvent.response 429 7)
      [make_request exampleConfig 0 0 1 (NetEvent.response 429 7)]).2.2
      (List.mem_singleton.mpr rfl)⟩

/-- Claim C3: a run that completes without cancellation collects exactly
`total_requests` outcomes; a run in which cancellation is triggered
before completion collects at most `total_requests` outcomes, and every
collected outcome is fully well-formed. -/
theorem run_collects_outcomes (cfg : TestConfiguration)
    (events : Nat → NetEvent) (startT elapsedT : Nat → ℚ)
    (c : CancelSpec) (sched : Nat → List Nat)
    (hB : 0 < cfg.batch_size)
    (hsched : ∀ b,
        b < batches_started (num_batches cfg.total_requests cfg.batch_size) c →
        BatchProcessed cfg.total_requests cfg.batch_size b
          (!batch_uncancelled c b) (sched b)) :
    (c = CancelSpec.never →
        (run_results cfg events startT elapsedT c sched).length
          = cfg.total_requests) ∧
    (run_results cfg events startT elapsedT c sched).length
        ≤ cfg.total_requests ∧
    (∀ r ∈ run_results cfg events startT elapsedT c sched, r.wf) := by
  have hT := le_num_batches_mul cfg.total_requests cfg.batch_size
  refine ⟨?_, ?_, ?_⟩
  · rintro rfl
    rw [run_results_length, batches_started_never] at *
    have hlen : ∀ b ∈ List.range (num_batches cfg.total_requests cfg.batch_size),
        (sched b).length
          = batch_end cfg.total_requests cfg.batch_size b
              - batch_start cfg.batch_size b := by
      intro b hb
      have hb' := List.mem_range.mp hb
      have h := hsched b hb'
      exact BatchProcessed.length_eq (by simpa [batch_uncancelled] using h)
    rw [List.map_congr_left hlen, sum_batch_sizes_list]
    have := le_num_batches_mul cfg.total_requests cfg.batch_size hB
    omega
  · rw [run_results_length]
    have hle : ((List.range
          (batches_started (num_batches cfg.total_requests cfg.batch_size) c)).map
          (fun b => (sched b).length)).sum
        ≤ ((List.range
          (batches_started (num_batches cfg.total_requests cfg.batch_size) c)).map
          (fun b => batch_end cfg.total_requests cfg.batch_size b
              - batch_start cfg.batch_size b)).sum := by
      apply List.sum_le_sum
      intro b hb
      exact (hsched b (List.mem_range.mp hb)).length_le
    calc _ ≤ _ := hle
      _ = _ := sum_batch_sizes_list cfg.total_requests cfg.batch_size _
      _ ≤ cfg.total_requests := Nat.min_le_right _ _
  · intro r hr
    unfold run_results at hr
    rw [List.mem_flatten] at hr
    obtain ⟨l, hl, hrl⟩ := hr
    rw [List.mem_map] at hl
    obtain ⟨b, _, rfl⟩ := hl
    rw [List.mem_map] at hrl
    obtain ⟨i, _, rfl⟩ := hrl
    exact make_request_wf cfg i (startT i) (elapsedT i) (events i)

/-- Claim C3 witness: a two-request, batch-size-one run without
cancellation collects exactly two outcomes. -/
theorem run_collects_outcomes_witness :
    (run_results exampleConfig (fun _ => NetEvent.timeout) (fun _ => 0)
        (fun _ => 1) CancelSpec.never (fun b => batch_ids 2 1 b)).length
      = 2 :=
  (run_collects_outcomes exampleConfig (fun _ => NetEvent.timeout)
      (fun _ => 0) (fun _ => 1) CancelSpec.never (fun b => batch_ids 2 1 b)
      (by decide) (fun b _ => List.Perm.refl _)).1 rfl

/-- Claim C4: for positive `T` and `B`, the scheduler computes
`num_batches = ⌈T/B⌉`, batch `b` covers the identifier range
`[b*B, min((b+1)*B, T))`, and the per-batch sizes sum to exactly `T`. -/
theorem batch_partition (T B : Nat) (hT : 0 < T) (hB : 0 < B) :
    num_batches T B = ⌈(T : ℚ) / (B : ℚ)⌉₊ ∧
    (∀ b, batch_ids T B b
        = List.range' (b * B) (min ((b + 1) * B) T - b * B)) ∧
    (Finset.range (num_batches T B)).sum
        (fun b => batch_end T B b - batch_start B b) = T :=
  ⟨num_batches_eq_ceil T B hB, fun b => rfl, sum_batch_sizes_total T B hB⟩

/-- Claim C4 witness at T = 5, B = 2. -/
theorem batch_partition_witness :
    num_batches 5 2 = ⌈((5 : Nat) : ℚ) / ((2 : Nat) : ℚ)⌉₊ ∧
    (Finset.range (num_batches 5 2)).sum
        (fun b => batch_end 5 2 b - batch_start 2 b) = 5 :=
  ⟨(batch_partition 5 2 (by decide) (by decide)).1,
    (batch_partition 5 2 (by decide) (by decide)).2.2⟩

/-- Claim C5: for every non-empty latency list and percentile `p ∈ [0,1]`
the percentile function of the aggregator computes linear interpolation between
order statistics (clamped to the last element when `floor + 1 = n`), and
in particular on `[10,20,30,40,50]` it returns p50 = 30, p95 = 48 and
p99 = 49.6 = 248/5. -/
theorem percentile_correct (data : List ℚ) (p : ℚ)
    (hne : data ≠ []) (hp0 : 0 ≤ p) (hp1 : p ≤ 1) :
    percentile data p = spec_percentile data p ∧
    percentile [10, 20, 30, 40, 50] (50 / 100) = 30 ∧
    percentile [10, 20, 30, 40, 50] (95 / 100) = 48 ∧
    percentile [10, 20, 30, 40, 50] (99 / 100) = 248 / 5 :=
  ⟨percentile_eq_spec data p hne hp0 hp1, percentile_example_p50,
    percentile_example_p95, percentile_example_p99⟩

/-- Claim C5 witness at the median of the known array. -/
theorem percentile_correct_witness :
    percentile [10, 20, 30, 40, 50] (50 / 100)
      = spec_percentile [10, 20, 30, 40, 50] (50 / 100) ∧
    percentile [10, 20, 30, 40, 50] (50 / 100) = 30 :=
  ⟨(percentile_correct [10, 20, 30, 40, 50] (50 / 100) (by simp)
      (by norm_num) (by norm_num)).1,
    (percentile_correct [10, 20, 30, 40, 50] (50 / 100) (by simp)
      (by norm_num) (by norm_num)).2.1⟩

/-- Claim C6 (code bug): in a cancelled batch execution that left an
identifier undequeued, `task_done` is never called for that item, so the
`queue.join()` that `run_batch` awaits never returns and `run` does not
terminate — contradicting the claim (and the
"Generating report with collected data" message printed by the interrupt
handler).  Concretely: batch 0 of
a two-request run with batch size 2, cancellation observed after the
first outcome completed and before the second identifier was dequeued. -/
theorem run_batch_join_never_returns :
    BatchProcessed 2 2 0 true [0] ∧ ¬ queue_join_returns 2 2 0 [0] := by
  constructor
  · show List.Subperm [0] (batch_ids 2 2 0)
    have hb : batch_ids 2 2 0 = [0, 1] := rfl
    rw [hb]
    exact ((List.nil_sublist [1]).cons₂ 0).subperm
  · intro h
    have h' : (1 : Nat) = 2 := h
    omega

/-- Claim C7 counterexample: three batches of one request, cooldown 5,
cancellation requested during the first cooldown wait: the scheduler
still sleeps the full 5 units of that cooldown (the wait is not
abandoned), even though no further batch starts. -/
theorem cooldown_wait_counterexample :
    sched_run 5 3 1 (CancelSpec.duringCooldown 0) = (1, 5) ∧
    ¬ (sched_run 5 3 1 (CancelSpec.duringCooldown 0)).2 < 5 := by
  have h := sched_from_duringCooldown 5 (num_batches 3 1) 0 (by norm_num)
      (by decide) (num_batches 3 1) 0 (by omega) (by omega)
  unfold sched_run
  rw [h]
  norm_num [Prod.ext_iff]

/-- Claim C7 (amended): if cancellation is requested while the scheduler
waits out the cooldown after batch `k`, no further batch starts — but the
wait is not abandoned: the full cooldown elapses, so the total cooldown
time slept is `(k+1) * cooldown`, not `k * cooldown` plus a partial
wait. -/
theorem cancel_during_cooldown_stops_batches (cooldown : ℚ) (T B k : Nat)
    (hc : 0 < cooldown) (hk : k + 1 < num_batches T B) :
    (sched_run cooldown T B (CancelSpec.duringCooldown k)).1 = k + 1 ∧
    (sched_run cooldown T B (CancelSpec.duringCooldown k)).2
      = ((k + 1 : Nat) : ℚ) * cooldown := by
  have h := sched_from_duringCooldown cooldown (num_batches T B) k hc hk
      (num_batches T B) 0 (by omega) (by omega)
  unfold sched_run
  rw [h]
  constructor
  · simp
  · simp

/-- Claim C7 witness: cooldown 5, three batches of one request,
cancellation during the cooldown after batch 0. -/
theorem cancel_during_cooldown_stops_batches_witness :
    (sched_run 5 3 1 (CancelSpec.duringCooldown 0)).1 = 0 + 1 ∧
    (sched_run 5 3 1 (CancelSpec.duringCooldown 0)).2
      = ((0 + 1 : Nat) : ℚ) * 5 :=
  cancel_during_cooldown_stops_batches 5 3 1 0 (by norm_num) (by decide)

/-- Claim C8: for the empty outcome sequence, `calculate_stats` returns
the "no data" signal `None`; `main` then skips the statistics report with
an explicit notice; and the requests-per-second guard divides only when
`total_time > 0`, so no division by zero occurs. -/
theorem calculate_stats_empty_no_data (start_time end_time : ℚ) :
    calculate_stats [] start_time end_time = none ∧
    main_report (calculate_stats [] start_time end_time)
      = ReportOutput.noData ∧
    (∀ (n : Nat) (t : ℚ), t ≤ 0 → requests_per_second n t = 0) := by
  refine ⟨rfl, rfl, ?_⟩
  intro n t ht
  unfold requests_per_second
  rw [if_neg (by linarith)]

/-- Claim C8 witness. -/
theorem calculate_stats_empty_no_data_witness :
    calculate_stats [] 0 0 = none ∧ requests_per_second 5 (-1) = 0 :=
  ⟨(calculate_stats_empty_no_data 0 0).1,
    (calculate_stats_empty_no_data 0 0).2.2 5 (-1) (by norm_num)⟩

/-- Claim C9: every Dispatcher outcome satisfies exactly one of
success-with-empty-error or failure-with-non-empty-error (stated as
`error = "" ↔ success = true`), and every failed outcome carries the
reserved sentinel status code 0. -/
theorem make_request_outcome_invariant (cfg : TestConfiguration)
    (request_id : Nat) (start elapsed : ℚ) (ev : NetEvent) :
    ((make_request cfg request_id start elapsed ev).error = "" ↔
        (make_request cfg request_id start elapsed ev).success = true) ∧
    ((make_request cfg request_id start elapsed ev).success = false →
        (make_request cfg request_id start elapsed ev).status_code = 0) := by
  have hwf := make_request_wf cfg request_id start elapsed ev
  unfold RequestResult.wf at hwf
  constructor
  · rcases hwf with ⟨hs, he⟩ | ⟨hs, he⟩
    · exact ⟨fun _ => hs, fun _ => he⟩
    · constructor
      · intro h
        exact absurd h he
      · intro h
        rw [hs] at h
        exact absurd h (by decide)
  · intro h
    exact (make_request_failure_fields cfg request_id start elapsed ev h).1

/-- Claim C9 witness at a concrete timeout outcome. -/
theorem make_request_outcome_invariant_witness :
    ((make_request exampleConfig 0 0 1 NetEvent.timeout).error = "" ↔
        (make_request exampleConfig 0 0 1 NetEvent.timeout).success = true) ∧
    (make_request exampleConfig 0 0 1 NetEvent.timeout).status_code = 0 :=
  ⟨(make_request_outcome_invariant exampleConfig 0 0 1 NetEvent.timeout).1,
    (make_request_outcome_invariant exampleConfig 0 0 1 NetEvent.timeout).2
      rfl⟩

/-- Claim C10: `total_data_transferred` sums `response_size` over exactly
the successful outcomes; because every failure-constructed outcome has
`response_size = 0`, the same value equals the sum over all collected
outcomes. -/
theorem total_data_transferred_sums (results : List RequestResult)
    (h : ∀ r ∈ results, ∃ cfg request_id start elapsed ev,
        r = make_request cfg request_id start elapsed ev) :
    total_data_transferred results
        = ((successful results).map (fun r => r.response_size)).sum ∧
    total_data_transferred results
        = (results.map (fun r => r.response_size)).sum := by
  refine ⟨rfl, ?_⟩
  have hz : ∀ r ∈ results, r.success = false → r.response_size = 0 := by
    intro r hr hs
    obtain ⟨cfg, request_id, start, elapsed, ev, rfl⟩ := h r hr
    exact (make_request_failure_fields cfg request_id start elapsed ev hs).2
  exact sum_sizes_filter_success results hz

/-- Claim C10 witness: one successful outcome of 5 bytes and one timeout;
the total equals the sum over all outcomes. -/
theorem total_data_transferred_sums_witness :
    total_data_transferred
        [make_request exampleConfig 0 0 1 (NetEvent.response 200 5),
          make_request exampleConfig 1 0 1 NetEvent.timeout]
      = ([make_request exampleConfig 0 0 1 (NetEvent.response 200 5),
          make_request exampleConfig 1 0 1 NetEvent.timeout].map
            (fun r => r.response_size)).sum :=
  (total_data_transferred_sums
      [make_request exampleConfig 0 0 1 (NetEvent.response 200 5),
        make_request exampleConfig 1 0 1 NetEvent.timeout]
      (by
        intro r hr
        rw [List.mem_cons] at hr
        rcases hr with rfl | hr
        · exact ⟨exampleConfig, 0, 0, 1, NetEvent.response 200 5, rfl⟩
        rw [List.mem_cons] at hr
        rcases hr with rfl | hr
        · exact ⟨exampleConfig, 1, 0, 1, NetEvent.timeout, rfl⟩
        · simp at hr)).2

end StressTest
